import Mathlib

/-!
Verification of the memesnipertool repository: a shallow embedding of the
auto-exit position monitor (supabase/functions/auto-exit/index.ts), the
Solana balance RPC fallback reader (supabase/functions/solana-balance/index.ts)
and the priority fee estimator hook (usePriorityFees), together with theorems
settling the specification claims.  JavaScript numbers are modelled as
rationals, network effects as explicit outcome parameters, and mutable
React/loop state as explicit state passing.
-/

namespace MemeSniper

/-! ## Auto-exit: data model (auto-exit/index.ts) -/

/-- Exit reason, as in checkExitConditions. -/
inductive ExitReason where
  | take_profit
  | stop_loss
deriving DecidableEq, Repr

/-- The action recorded in an ExitResult: hold or one of the exit reasons. -/
inductive ExitAction where
  | hold
  | take_profit
  | stop_loss
deriving DecidableEq, Repr

/-- Coercion of an exit reason into the result action, as in
results.push with action: reason. -/
def ExitReason.toAction : ExitReason → ExitAction
  | .take_profit => .take_profit
  | .stop_loss => .stop_loss

/-- The fields of the Position interface used by the monitor
(auto-exit/index.ts lines 18-35); numeric fields are rationals. -/
structure Position where
  id : String
  token_symbol : String
  entry_price : ℚ
  current_price : ℚ
  amount : ℚ
  entry_value : ℚ
  profit_loss_percent : ℚ
  profit_take_percent : ℚ
  stop_loss_percent : ℚ
deriving DecidableEq, Repr

/-- Return value of checkExitConditions. -/
structure ExitCheck where
  shouldExit : Bool
  reason : Option ExitReason
  profitLossPercent : ℚ
deriving DecidableEq, Repr

/-- checkExitConditions (auto-exit/index.ts lines 168-185): compute
profitLossPercent and test take-profit then stop-loss with inclusive
comparisons. -/
def checkExitConditions (position : Position) (currentPrice : ℚ) : ExitCheck :=
  let profitLossPercent := (currentPrice - position.entry_price) / position.entry_price * 100
  if profitLossPercent ≥ position.profit_take_percent then
    ⟨true, some .take_profit, profitLossPercent⟩
  else if profitLossPercent ≤ -position.stop_loss_percent then
    ⟨true, some .stop_loss, profitLossPercent⟩
  else
    ⟨false, none, profitLossPercent⟩

end MemeSniper

namespace MemeSniper

/-- C1: for a position with non-zero entry price, checkExitConditions computes
profitLossPercent = (currentPrice - entryPrice) / entryPrice * 100 and decides
in fixed order with inclusive comparisons: profitLossPercent ≥
profit_take_percent gives take_profit, otherwise profitLossPercent ≤
-stop_loss_percent gives stop_loss, otherwise hold; equality at either
threshold triggers the exit. -/
theorem checkExitConditions_spec (position : Position) (currentPrice : ℚ)
    (hentry : position.entry_price ≠ 0) :
    let plp := (currentPrice - position.entry_price) / position.entry_price * 100
    (checkExitConditions position currentPrice).profitLossPercent = plp ∧
    (plp ≥ position.profit_take_percent →
      checkExitConditions position currentPrice = ⟨true, some .take_profit, plp⟩) ∧
    (plp < position.profit_take_percent → plp ≤ -position.stop_loss_percent →
      checkExitConditions position currentPrice = ⟨true, some .stop_loss, plp⟩) ∧
    (plp < position.profit_take_percent → -position.stop_loss_percent < plp →
      checkExitConditions position currentPrice = ⟨false, none, plp⟩) := by
  refine ⟨?_, ?_, ?_, ?_⟩ <;> simp only [checkExitConditions]
  · split <;> [skip; split] <;> rfl
  · intro h; rw [if_pos h]
  · intro h1 h2; rw [if_neg (not_le.mpr h1), if_pos h2]
  · intro h1 h2; rw [if_neg (not_le.mpr h1), if_neg (not_le.mpr h2)]

/-- Witness for checkExitConditions_spec at a concrete position. -/
theorem checkExitConditions_spec_witness :
    let position : Position := ⟨"p1", "TOK", 2, 2, 10, 20, 0, 50, 20⟩
    (position.entry_price ≠ 0) ∧
    (let plp := ((3 : ℚ) - position.entry_price) / position.entry_price * 100
     (checkExitConditions position 3).profitLossPercent = plp ∧
     (plp ≥ position.profit_take_percent →
       checkExitConditions position 3 = ⟨true, some .take_profit, plp⟩) ∧
     (plp < position.profit_take_percent → plp ≤ -position.stop_loss_percent →
       checkExitConditions position 3 = ⟨true, some .stop_loss, plp⟩) ∧
     (plp < position.profit_take_percent → -position.stop_loss_percent < plp →
       checkExitConditions position 3 = ⟨false, none, plp⟩)) :=
  ⟨by decide, checkExitConditions_spec ⟨"p1", "TOK", 2, 2, 10, 20, 0, 50, 20⟩ 3 (by decide)⟩

end MemeSniper

namespace MemeSniper

/-! ## Auto-exit: price oracle chain (fetchCurrentPrice) -/

/-- The three price sources tried by fetchCurrentPrice, in priority order. -/
inductive PriceSource where
  | dexscreener
  | geckoterminal
  | birdeye
deriving DecidableEq, Repr

/-- The fields of the ApiConfig interface used by fetchCurrentPrice
(auto-exit/index.ts lines 9-16). -/
structure ApiConfig where
  api_type : String
  api_name : String
  base_url : String
  api_key_encrypted : Option String
  is_enabled : Bool
deriving DecidableEq, Repr

/-- Outcome of one source attempt: the fetch or parse threw (caught by the
per-source catch), the response was not ok or carried no usable price field,
or a numeric price was parsed. -/
inductive FetchOutcome where
  | threw
  | okNoPrice
  | okPrice (price : ℚ)
deriving DecidableEq, Repr

/-- The usable numeric price a source attempt yields, if any: both a thrown
error and an ok response without a price field yield none and the chain
moves on. -/
def FetchOutcome.price? : FetchOutcome → Option ℚ
  | .okPrice p => some p
  | _ => none

/-- The Birdeye block of fetchCurrentPrice (auto-exit/index.ts lines
94-110): attempted only when an enabled birdeye config exists, the chain is
solana and the config carries an API key.  Second component records whether
the source was attempted. -/
def birdeyeStep (chain : String) (apiConfigs : List ApiConfig)
    (net : PriceSource → FetchOutcome) : Option ℚ × List PriceSource :=
  match apiConfigs.find? (fun c => c.api_type == "birdeye" && c.is_enabled) with
  | some c =>
    if chain == "solana" && c.api_key_encrypted.isSome then
      match (net .birdeye).price? with
      | some p => (some p, [.birdeye])
      | none => (none, [.birdeye])
    else (none, [])
  | none => (none, [])

/-- The GeckoTerminal block of fetchCurrentPrice (auto-exit/index.ts lines
77-92), falling through to the Birdeye block on no usable price. -/
def geckoStep (chain : String) (apiConfigs : List ApiConfig)
    (net : PriceSource → FetchOutcome) : Option ℚ × List PriceSource :=
  match apiConfigs.find? (fun c => c.api_type == "geckoterminal" && c.is_enabled) with
  | some _ =>
    match (net .geckoterminal).price? with
    | some p => (some p, [.geckoterminal])
    | none =>
      ((birdeyeStep chain apiConfigs net).1,
        .geckoterminal :: (birdeyeStep chain apiConfigs net).2)
  | none => birdeyeStep chain apiConfigs net

/-- fetchCurrentPrice (auto-exit/index.ts lines 55-113): try DexScreener,
then GeckoTerminal, then Birdeye; a source is attempted only if an enabled
config for it is found (and, for Birdeye, the chain is solana and an API key
is present); the first usable numeric price is returned at once, and null
when every source is exhausted.  The network is an explicit outcome per
source; the second component records which sources were attempted, in
order. -/
def fetchCurrentPrice (chain : String) (apiConfigs : List ApiConfig)
    (net : PriceSource → FetchOutcome) : Option ℚ × List PriceSource :=
  match apiConfigs.find? (fun c => c.api_type == "dexscreener" && c.is_enabled) with
  | some _ =>
    match (net .dexscreener).price? with
    | some p => (some p, [.dexscreener])
    | none =>
      ((geckoStep chain apiConfigs net).1,
        .dexscreener :: (geckoStep chain apiConfigs net).2)
  | none => geckoStep chain apiConfigs net

/-- The Birdeye block only ever attempts Birdeye. -/
lemma birdeyeStep_attempts (chain : String) (apiConfigs : List ApiConfig)
    (net : PriceSource → FetchOutcome) :
    (birdeyeStep chain apiConfigs net).2 = [] ∨
    (birdeyeStep chain apiConfigs net).2 = [.birdeye] := by
  unfold birdeyeStep
  cases hb : apiConfigs.find? (fun c => c.api_type == "birdeye" && c.is_enabled) with
  | none => left; rfl
  | some c =>
    by_cases hk : (chain == "solana" && c.api_key_encrypted.isSome) = true
    · cases hnb : (net .birdeye).price? <;> simp [hk, hnb]
    · simp [hk]

/-- The Gecko block attempts at most GeckoTerminal then Birdeye, in order. -/
lemma geckoStep_attempts (chain : String) (apiConfigs : List ApiConfig)
    (net : PriceSource → FetchOutcome) :
    (geckoStep chain apiConfigs net).2.Sublist [.geckoterminal, .birdeye] := by
  unfold geckoStep
  cases hg : apiConfigs.find? (fun c => c.api_type == "geckoterminal" && c.is_enabled) with
  | none =>
    rcases birdeyeStep_attempts chain apiConfigs net with h | h <;> simp [h]
  | some c =>
    cases hng : (net .geckoterminal).price? with
    | some p => simp
    | none =>
      rcases birdeyeStep_attempts chain apiConfigs net with h | h <;> simp [h]

end MemeSniper

namespace MemeSniper

/-- Soundness of a chain stage: either it yields no price and every source
it attempted yielded no usable price, or it yields exactly the price of the
last source it attempted and every earlier attempt yielded none — so the
first usable price is returned and nothing later is tried. -/
def chainSound (net : PriceSource → FetchOutcome)
    (X : Option ℚ × List PriceSource) : Prop :=
  (X.1 = none ∧ ∀ s ∈ X.2, (net s).price? = none) ∨
  (∃ p s, X.1 = some p ∧ X.2.getLast? = some s ∧ (net s).price? = some p ∧
    ∀ t ∈ X.2.dropLast, (net t).price? = none)

/-- Prepending a failed attempt preserves chain soundness. -/
lemma chainSound_cons_fail (net : PriceSource → FetchOutcome) (s : PriceSource)
    (hs : (net s).price? = none) (X : Option ℚ × List PriceSource)
    (h : chainSound net X) : chainSound net (X.1, s :: X.2) := by
  rcases h with ⟨h1, h2⟩ | ⟨p, t, h1, h2, h3, h4⟩
  · left
    refine ⟨h1, ?_⟩
    intro u hu
    rcases List.mem_cons.mp hu with hu | hu
    · subst hu; exact hs
    · exact h2 u hu
  · right
    cases hX : X.2 with
    | nil => rw [hX] at h2; simp at h2
    | cons a l =>
      rw [hX] at h2 h4
      refine ⟨p, t, h1, ?_, h3, ?_⟩
      · show (s :: a :: l).getLast? = some t
        rw [List.getLast?_cons_cons]
        exact h2
      · intro u hu
        have hu2 : u ∈ (s :: a :: l).dropLast := hu
        rw [List.dropLast_cons₂] at hu2
        rcases List.mem_cons.mp hu2 with hu2 | hu2
        · subst hu2; exact hs
        · exact h4 u hu2

/-- The Birdeye block is chain-sound. -/
lemma birdeyeStep_sound (chain : String) (apiConfigs : List ApiConfig)
    (net : PriceSource → FetchOutcome) :
    chainSound net (birdeyeStep chain apiConfigs net) := by
  unfold birdeyeStep
  cases hb : apiConfigs.find? (fun c => c.api_type == "birdeye" && c.is_enabled) with
  | none => left; exact ⟨rfl, by simp⟩
  | some c =>
    simp only []
    by_cases hk : (chain == "solana" && c.api_key_encrypted.isSome) = true
    · rw [if_pos hk]
      cases hnb : (net .birdeye).price? with
      | none =>
        left
        refine ⟨rfl, ?_⟩
        intro u hu
        simp at hu
        subst hu
        exact hnb
      | some p => right; exact ⟨p, .birdeye, rfl, rfl, hnb, by simp⟩
    · rw [if_neg hk]; left; exact ⟨rfl, by simp⟩

/-- The GeckoTerminal block is chain-sound. -/
lemma geckoStep_sound (chain : String) (apiConfigs : List ApiConfig)
    (net : PriceSource → FetchOutcome) :
    chainSound net (geckoStep chain apiConfigs net) := by
  unfold geckoStep
  cases hg : apiConfigs.find? (fun c => c.api_type == "geckoterminal" && c.is_enabled) with
  | none => exact birdeyeStep_sound chain apiConfigs net
  | some c =>
    cases hng : (net .geckoterminal).price? with
    | some p => right; exact ⟨p, .geckoterminal, rfl, rfl, hng, by simp⟩
    | none =>
      exact chainSound_cons_fail net .geckoterminal hng _
        (birdeyeStep_sound chain apiConfigs net)

/-- The whole oracle chain is chain-sound. -/
lemma fetchCurrentPrice_sound (chain : String) (apiConfigs : List ApiConfig)
    (net : PriceSource → FetchOutcome) :
    chainSound net (fetchCurrentPrice chain apiConfigs net) := by
  unfold fetchCurrentPrice
  cases hd : apiConfigs.find? (fun c => c.api_type == "dexscreener" && c.is_enabled) with
  | none => exact geckoStep_sound chain apiConfigs net
  | some c =>
    cases hnd : (net .dexscreener).price? with
    | some p => right; exact ⟨p, .dexscreener, rfl, rfl, hnd, by simp⟩
    | none =>
      exact chainSound_cons_fail net .dexscreener hnd _
        (geckoStep_sound chain apiConfigs net)

/-- An enabled GeckoTerminal config makes the Gecko block attempt it. -/
lemma gecko_mem_geckoStep (chain : String) (apiConfigs : List ApiConfig)
    (net : PriceSource → FetchOutcome) (cg : ApiConfig)
    (hg : apiConfigs.find? (fun c => c.api_type == "geckoterminal" && c.is_enabled) = some cg) :
    PriceSource.geckoterminal ∈ (geckoStep chain apiConfigs net).2 := by
  unfold geckoStep
  rw [hg]
  cases hng : (net .geckoterminal).price? <;> simp

/-- An enabled, solana, keyed Birdeye config makes the Birdeye block
attempt it. -/
lemma birdeye_mem_birdeyeStep (chain : String) (apiConfigs : List ApiConfig)
    (net : PriceSource → FetchOutcome) (c : ApiConfig)
    (hb : apiConfigs.find? (fun c => c.api_type == "birdeye" && c.is_enabled) = some c)
    (hk : (chain == "solana" && c.api_key_encrypted.isSome) = true) :
    PriceSource.birdeye ∈ (birdeyeStep chain apiConfigs net).2 := by
  unfold birdeyeStep
  rw [hb]
  simp only []
  rw [if_pos hk]
  cases hnb : (net .birdeye).price? <;> simp

/-- With GeckoTerminal skipped or failing, an eligible Birdeye config is
attempted by the Gecko block. -/
lemma birdeye_mem_geckoStep (chain : String) (apiConfigs : List ApiConfig)
    (net : PriceSource → FetchOutcome) (c : ApiConfig)
    (hskipg : apiConfigs.find? (fun c => c.api_type == "geckoterminal" && c.is_enabled) = none ∨
      (net .geckoterminal).price? = none)
    (hb : apiConfigs.find? (fun c => c.api_type == "birdeye" && c.is_enabled) = some c)
    (hk : (chain == "solana" && c.api_key_encrypted.isSome) = true) :
    PriceSource.birdeye ∈ (geckoStep chain apiConfigs net).2 := by
  unfold geckoStep
  rcases hskipg with h | h
  · rw [h]
    exact birdeye_mem_birdeyeStep chain apiConfigs net c hb hk
  · cases hg : apiConfigs.find? (fun c => c.api_type == "geckoterminal" && c.is_enabled) with
    | none => exact birdeye_mem_birdeyeStep chain apiConfigs net c hb hk
    | some cg =>
      rw [h]
      simp only []
      exact List.mem_cons_of_mem _ (birdeye_mem_birdeyeStep chain apiConfigs net c hb hk)

/-- C3: the oracle chain tries sources in the fixed order DexScreener,
GeckoTerminal, Birdeye (the attempted list is a sublist of that order); a
source with no enabled config is skipped, and Birdeye is skipped when its
config has no API key; an enabled DexScreener is always attempted, an
enabled GeckoTerminal is attempted whenever DexScreener is skipped or
failed, and an eligible Birdeye whenever both earlier sources are skipped
or failed; every attempted source before the last yielded no usable price,
and the chain returns a price exactly when the last attempted source
yielded it — so the first source with a usable numeric price is returned
immediately and no later source is ever attempted, whichever source that
is.  In particular, in the claim's scenario — source 1 enabled but
failing, source 2 enabled and succeeding — the result is source 2's price
and source 3 is never called. -/
theorem fetchCurrentPrice_spec (chain : String) (apiConfigs : List ApiConfig)
    (net : PriceSource → FetchOutcome) :
    (fetchCurrentPrice chain apiConfigs net).2.Sublist
      [.dexscreener, .geckoterminal, .birdeye] ∧
    (apiConfigs.find? (fun c => c.api_type == "dexscreener" && c.is_enabled) = none →
      PriceSource.dexscreener ∉ (fetchCurrentPrice chain apiConfigs net).2) ∧
    (apiConfigs.find? (fun c => c.api_type == "geckoterminal" && c.is_enabled) = none →
      PriceSource.geckoterminal ∉ (fetchCurrentPrice chain apiConfigs net).2) ∧
    (∀ c, apiConfigs.find? (fun c => c.api_type == "birdeye" && c.is_enabled) = some c →
      c.api_key_encrypted = none →
      PriceSource.birdeye ∉ (fetchCurrentPrice chain apiConfigs net).2) ∧
    (∀ cd, apiConfigs.find? (fun c => c.api_type == "dexscreener" && c.is_enabled) = some cd →
      ∀ p, (net .dexscreener).price? = some p →
      fetchCurrentPrice chain apiConfigs net = (some p, [.dexscreener])) ∧
    (∀ cd, apiConfigs.find? (fun c => c.api_type == "dexscreener" && c.is_enabled) = some cd →
      (net .dexscreener).price? = none →
      ∀ cg, apiConfigs.find? (fun c => c.api_type == "geckoterminal" && c.is_enabled) = some cg →
      ∀ p, (net .geckoterminal).price? = some p →
      fetchCurrentPrice chain apiConfigs net = (some p, [.dexscreener, .geckoterminal])) ∧
    (∀ cd, apiConfigs.find? (fun c => c.api_type == "dexscreener" && c.is_enabled) = some cd →
      PriceSource.dexscreener ∈ (fetchCurrentPrice chain apiConfigs net).2) ∧
    ((apiConfigs.find? (fun c => c.api_type == "dexscreener" && c.is_enabled) = none ∨
        (net .dexscreener).price? = none) →
      ∀ cg, apiConfigs.find? (fun c => c.api_type == "geckoterminal" && c.is_enabled) = some cg →
      PriceSource.geckoterminal ∈ (fetchCurrentPrice chain apiConfigs net).2) ∧
    ((apiConfigs.find? (fun c => c.api_type == "dexscreener" && c.is_enabled) = none ∨
        (net .dexscreener).price? = none) →
      (apiConfigs.find? (fun c => c.api_type == "geckoterminal" && c.is_enabled) = none ∨
        (net .geckoterminal).price? = none) →
      ∀ c, apiConfigs.find? (fun c => c.api_type == "birdeye" && c.is_enabled) = some c →
      (chain == "solana" && c.api_key_encrypted.isSome) = true →
      PriceSource.birdeye ∈ (fetchCurrentPrice chain apiConfigs net).2) ∧
    (∀ t ∈ (fetchCurrentPrice chain apiConfigs net).2.dropLast,
      (net t).price? = none) ∧
    (∀ p, (fetchCurrentPrice chain apiConfigs net).1 = some p →
      ∃ s, (fetchCurrentPrice chain apiConfigs net).2.getLast? = some s ∧
        (net s).price? = some p) ∧
    (∀ s p, (fetchCurrentPrice chain apiConfigs net).2.getLast? = some s →
      (net s).price? = some p →
      (fetchCurrentPrice chain apiConfigs net).1 = some p) := by
  refine ⟨?_, ?_, ?_, ?_, ?_, ?_, ?_, ?_, ?_, ?_, ?_, ?_⟩
  · unfold fetchCurrentPrice
    cases hd : apiConfigs.find? (fun c => c.api_type == "dexscreener" && c.is_enabled) with
    | none => exact (geckoStep_attempts chain apiConfigs net).trans (by simp)
    | some c =>
      cases hnd : (net .dexscreener).price? with
      | some p => simp
      | none =>
        simp only []
        exact (geckoStep_attempts chain apiConfigs net).cons₂ PriceSource.dexscreener
  · intro hd
    unfold fetchCurrentPrice
    rw [hd]
    intro hmem
    have := (geckoStep_attempts chain apiConfigs net).subset hmem
    simp at this
  · intro hg
    unfold fetchCurrentPrice geckoStep
    rw [hg]
    have hb := birdeyeStep_attempts chain apiConfigs net
    cases hd : apiConfigs.find? (fun c => c.api_type == "dexscreener" && c.is_enabled) with
    | none => rcases hb with h | h <;> simp [h]
    | some c =>
      cases hnd : (net .dexscreener).price? with
      | some p => simp
      | none => rcases hb with h | h <;> simp [h]
  · intro c hb hkey
    have hstep : (birdeyeStep chain apiConfigs net).2 = [] := by
      unfold birdeyeStep
      rw [hb]
      simp [hkey]
    unfold fetchCurrentPrice geckoStep
    rw [hstep]
    cases hd : apiConfigs.find? (fun c => c.api_type == "dexscreener" && c.is_enabled) with
    | none =>
      cases hg : apiConfigs.find? (fun c => c.api_type == "geckoterminal" && c.is_enabled) with
      | none => rw [hstep]; simp
      | some cg => cases hng : (net .geckoterminal).price? <;> simp
    | some cd =>
      cases hnd : (net .dexscreener).price? with
      | some p => simp
      | none =>
        cases hg : apiConfigs.find? (fun c => c.api_type == "geckoterminal" && c.is_enabled) with
        | none => rw [hstep]; simp
        | some cg => cases hng : (net .geckoterminal).price? <;> simp
  · intro cd hd p hp
    unfold fetchCurrentPrice
    rw [hd, hp]
  · intro cd hd hnd cg hg p hp
    unfold fetchCurrentPrice geckoStep
    rw [hd, hnd, hg, hp]
  · intro cd hd
    unfold fetchCurrentPrice
    rw [hd]
    cases hnd : (net .dexscreener).price? <;> simp
  · intro hskipd cg hg
    unfold fetchCurrentPrice
    rcases hskipd with h | h
    · rw [h]
      exact gecko_mem_geckoStep chain apiConfigs net cg hg
    · cases hd : apiConfigs.find? (fun c => c.api_type == "dexscreener" && c.is_enabled) with
      | none => exact gecko_mem_geckoStep chain apiConfigs net cg hg
      | some cd =>
        rw [h]
        simp only []
        exact List.mem_cons_of_mem _ (gecko_mem_geckoStep chain apiConfigs net cg hg)
  · intro hskipd hskipg c hb hk
    unfold fetchCurrentPrice
    rcases hskipd with h | h
    · rw [h]
      exact birdeye_mem_geckoStep chain apiConfigs net c hskipg hb hk
    · cases hd : apiConfigs.find? (fun c => c.api_type == "dexscreener" && c.is_enabled) with
      | none => exact birdeye_mem_geckoStep chain apiConfigs net c hskipg hb hk
      | some cd =>
        rw [h]
        simp only []
        exact List.mem_cons_of_mem _
          (birdeye_mem_geckoStep chain apiConfigs net c hskipg hb hk)
  · intro t ht
    rcases fetchCurrentPrice_sound chain apiConfigs net with ⟨h1, h2⟩ | ⟨p, u, h1, h2, h3, h4⟩
    · exact h2 t (List.dropLast_subset _ ht)
    · exact h4 t ht
  · intro p hp
    rcases fetchCurrentPrice_sound chain apiConfigs net with ⟨h1, h2⟩ | ⟨q, u, h1, h2, h3, h4⟩
    · rw [h1] at hp; simp at hp
    · rw [h1] at hp
      refine ⟨u, h2, ?_⟩
      rw [h3, Option.some_inj.mp hp]
  · intro t p hlast hps
    rcases fetchCurrentPrice_sound chain apiConfigs net with ⟨h1, h2⟩ | ⟨q, u, h1, h2, h3, h4⟩
    · have hmem : t ∈ (fetchCurrentPrice chain apiConfigs net).2 := by
        obtain ⟨hne, heq⟩ := List.mem_getLast?_eq_getLast (Option.mem_def.mpr hlast)
        rw [heq]
        exact List.getLast_mem hne
      rw [h2 t hmem] at hps
      exact absurd hps (by simp)
    · have hut : u = t := Option.some_inj.mp (h2.symm.trans hlast)
      rw [hut] at h3
      rw [h3] at hps
      rw [h1, Option.some_inj.mp hps]

/-- Witness for fetchCurrentPrice_spec: first, with all three sources
enabled, DexScreener failing with a thrown error and GeckoTerminal
succeeding at price 7/2, the chain returns GeckoTerminal's price having
attempted exactly DexScreener then GeckoTerminal, and Birdeye is never
called; second, with DexScreener disabled, GeckoTerminal responding without
a price and Birdeye succeeding at price 9, the chain attempts Birdeye and
returns its price. -/
theorem fetchCurrentPrice_spec_witness :
    (fetchCurrentPrice "solana"
      [⟨"dexscreener", "ds", "https://api.dexscreener.com", none, true⟩,
       ⟨"geckoterminal", "gt", "https://api.geckoterminal.com", none, true⟩,
       ⟨"birdeye", "be", "https://public-api.birdeye.so", some "key", true⟩]
      (fun s =>
        match s with
        | .dexscreener => .threw
        | .geckoterminal => .okPrice (7/2)
        | .birdeye => .okPrice 9) =
      (some (7/2), [.dexscreener, .geckoterminal])) ∧
    PriceSource.birdeye ∈ (fetchCurrentPrice "solana"
      [⟨"dexscreener", "ds", "https://api.dexscreener.com", none, false⟩,
       ⟨"geckoterminal", "gt", "https://api.geckoterminal.com", none, true⟩,
       ⟨"birdeye", "be", "https://public-api.birdeye.so", some "key", true⟩]
      (fun s =>
        match s with
        | .dexscreener => .threw
        | .geckoterminal => .okNoPrice
        | .birdeye => .okPrice 9)).2 ∧
    (fetchCurrentPrice "solana"
      [⟨"dexscreener", "ds", "https://api.dexscreener.com", none, false⟩,
       ⟨"geckoterminal", "gt", "https://api.geckoterminal.com", none, true⟩,
       ⟨"birdeye", "be", "https://public-api.birdeye.so", some "key", true⟩]
      (fun s =>
        match s with
        | .dexscreener => .threw
        | .geckoterminal => .okNoPrice
        | .birdeye => .okPrice 9)).1 = some 9 := by
  refine ⟨?_, ?_, ?_⟩
  · exact (fetchCurrentPrice_spec "solana"
      [⟨"dexscreener", "ds", "https://api.dexscreener.com", none, true⟩,
       ⟨"geckoterminal", "gt", "https://api.geckoterminal.com", none, true⟩,
       ⟨"birdeye", "be", "https://public-api.birdeye.so", some "key", true⟩]
      (fun s =>
        match s with
        | .dexscreener => .threw
        | .geckoterminal => .okPrice (7/2)
        | .birdeye => .okPrice 9)).2.2.2.2.2.1
      ⟨"dexscreener", "ds", "https://api.dexscreener.com", none, true⟩ rfl rfl
      ⟨"geckoterminal", "gt", "https://api.geckoterminal.com", none, true⟩ rfl (7/2) rfl
  · exact (fetchCurrentPrice_spec "solana"
      [⟨"dexscreener", "ds", "https://api.dexscreener.com", none, false⟩,
       ⟨"geckoterminal", "gt", "https://api.geckoterminal.com", none, true⟩,
       ⟨"birdeye", "be", "https://public-api.birdeye.so", some "key", true⟩]
      (fun s =>
        match s with
        | .dexscreener => .threw
        | .geckoterminal => .okNoPrice
        | .birdeye => .okPrice 9)).2.2.2.2.2.2.2.2.1
      (Or.inl rfl) (Or.inr rfl)
      ⟨"birdeye", "be", "https://public-api.birdeye.so", some "key", true⟩ rfl rfl
  · exact (fetchCurrentPrice_spec "solana"
      [⟨"dexscreener", "ds", "https://api.dexscreener.com", none, false⟩,
       ⟨"geckoterminal", "gt", "https://api.geckoterminal.com", none, true⟩,
       ⟨"birdeye", "be", "https://public-api.birdeye.so", some "key", true⟩]
      (fun s =>
        match s with
        | .dexscreener => .threw
        | .geckoterminal => .okNoPrice
        | .birdeye => .okPrice 9)).2.2.2.2.2.2.2.2.2.2.2
      .birdeye 9 rfl rfl

/-- C7: when every source attempt yields no usable price — including
attempts that threw, which the per-source catch swallows — the oracle chain
returns null rather than an error, for every chain and configuration list. -/
theorem fetchCurrentPrice_allFail (chain : String) (apiConfigs : List ApiConfig)
    (net : PriceSource → FetchOutcome)
    (hall : ∀ s, (net s).price? = none) :
    (fetchCurrentPrice chain apiConfigs net).1 = none := by
  have hb1 : (birdeyeStep chain apiConfigs net).1 = none := by
    unfold birdeyeStep
    cases hb : apiConfigs.find? (fun c => c.api_type == "birdeye" && c.is_enabled) with
    | none => rfl
    | some c =>
      simp only []
      by_cases hk : (chain == "solana" && c.api_key_encrypted.isSome) = true
      · rw [if_pos hk, hall .birdeye]
      · rw [if_neg hk]
  have hg1 : (geckoStep chain apiConfigs net).1 = none := by
    unfold geckoStep
    cases hg : apiConfigs.find? (fun c => c.api_type == "geckoterminal" && c.is_enabled) with
    | none => exact hb1
    | some c => rw [hall .geckoterminal]; exact hb1
  unfold fetchCurrentPrice
  cases hd : apiConfigs.find? (fun c => c.api_type == "dexscreener" && c.is_enabled) with
  | none => exact hg1
  | some c => rw [hall .dexscreener]; exact hg1

/-- Witness for fetchCurrentPrice_allFail: all three sources enabled and all
three attempts throwing still yields a null price, not an error. -/
theorem fetchCurrentPrice_allFail_witness :
    (fetchCurrentPrice "solana"
      [⟨"dexscreener", "ds", "https://api.dexscreener.com", none, true⟩,
       ⟨"geckoterminal", "gt", "https://api.geckoterminal.com", none, true⟩,
       ⟨"birdeye", "be", "https://public-api.birdeye.so", some "key", true⟩]
      (fun _ => .threw)).1 = none :=
  fetchCurrentPrice_allFail "solana" _ (fun _ => .threw) (fun s => by cases s <;> rfl)

end MemeSniper

namespace MemeSniper

/-! ## Auto-exit: the per-position monitor loop (serve, lines 265-357) -/

/-- An entry of the results array (ExitResult interface, lines 43-52);
optional fields are Options. -/
structure ExitResult where
  positionId : String
  symbol : String
  action : ExitAction
  currentPrice : ℚ
  profitLossPercent : ℚ
  executed : Bool
  txId : Option String
  error : Option String
deriving DecidableEq, Repr

/-- The staged price update pushed onto positionUpdates (lines 290-298). -/
structure PositionUpdate where
  id : String
  current_price : ℚ
  current_value : ℚ
  profit_loss_percent : ℚ
  profit_loss_value : ℚ
deriving DecidableEq, Repr

/-- The close-on-sell update written when a sell executes (lines 315-328);
status becomes closed. -/
structure ClosedUpdate where
  id : String
  exit_reason : ExitReason
  exit_price : ℚ
  exit_tx_id : String
  current_price : ℚ
  current_value : ℚ
  profit_loss_percent : ℚ
  profit_loss_value : ℚ
deriving DecidableEq, Repr

/-- Outcome of executeSell (lines 116-165): success carries a transaction
id (possibly the literal pending), failure carries an error message and no
transaction id. -/
inductive SellOutcome where
  | success (txId : String)
  | failure (error : String)
deriving DecidableEq, Repr

/-- One iteration of the position loop (serve, lines 265-352): fetch the
price (modelled as priceOf), on failure emit the hold/error result and stage
nothing; otherwise run checkExitConditions, always stage the price update,
and on an exit signal with executeExits and a trade config run the sell
(modelled as sellOf) and, on success, produce the close-on-sell update. -/
def processPosition (priceOf : Position → Option ℚ) (sellOf : Position → SellOutcome)
    (executeExits hasTradeConfig : Bool) (position : Position) :
    ExitResult × Option PositionUpdate × Option ClosedUpdate :=
  match priceOf position with
  | none =>
    (⟨position.id, position.token_symbol, .hold, position.current_price,
      position.profit_loss_percent, false, none, some "Could not fetch current price"⟩,
      none, none)
  | some currentPrice =>
    let check := checkExitConditions position currentPrice
    let currentValue := position.amount * currentPrice
    let profitLossValue := currentValue - position.entry_value
    let upd : PositionUpdate :=
      ⟨position.id, currentPrice, currentValue, check.profitLossPercent, profitLossValue⟩
    match check.reason, check.shouldExit with
    | some reason, true =>
      if executeExits && hasTradeConfig then
        match sellOf position with
        | .success txId =>
          (⟨position.id, position.token_symbol, reason.toAction, currentPrice,
            check.profitLossPercent, true, some txId, none⟩,
            some upd,
            some ⟨position.id, reason, currentPrice, txId, currentPrice, currentValue,
              check.profitLossPercent, profitLossValue⟩)
        | .failure err =>
          (⟨position.id, position.token_symbol, reason.toAction, currentPrice,
            check.profitLossPercent, false, none, some err⟩,
            some upd, none)
      else
        (⟨position.id, position.token_symbol, reason.toAction, currentPrice,
          check.profitLossPercent, false, none, none⟩,
          some upd, none)
    | _, _ =>
      (⟨position.id, position.token_symbol, .hold, currentPrice,
        check.profitLossPercent, false, none, none⟩,
        some upd, none)

/-- The whole loop over the positions batch, collecting the results array,
the staged positionUpdates and the close-on-sell updates in order.  The
loop carries no state from one position to the next. -/
def processPositions (priceOf : Position → Option ℚ) (sellOf : Position → SellOutcome)
    (executeExits hasTradeConfig : Bool) :
    List Position → List ExitResult × List PositionUpdate × List ClosedUpdate
  | [] => ([], [], [])
  | position :: rest =>
    let r := processPosition priceOf sellOf executeExits hasTradeConfig position
    let rs := processPositions priceOf sellOf executeExits hasTradeConfig rest
    (r.1 :: rs.1, r.2.1.toList ++ rs.2.1, r.2.2.toList ++ rs.2.2)

/-- Processing a concatenated batch concatenates results component-wise:
positions are processed independently. -/
lemma processPositions_append (priceOf : Position → Option ℚ)
    (sellOf : Position → SellOutcome) (executeExits hasTradeConfig : Bool)
    (ps qs : List Position) :
    processPositions priceOf sellOf executeExits hasTradeConfig (ps ++ qs) =
      ((processPositions priceOf sellOf executeExits hasTradeConfig ps).1 ++
        (processPositions priceOf sellOf executeExits hasTradeConfig qs).1,
       (processPositions priceOf sellOf executeExits hasTradeConfig ps).2.1 ++
        (processPositions priceOf sellOf executeExits hasTradeConfig qs).2.1,
       (processPositions priceOf sellOf executeExits hasTradeConfig ps).2.2 ++
        (processPositions priceOf sellOf executeExits hasTradeConfig qs).2.2) := by
  induction ps with
  | nil => simp [processPositions]
  | cons p ps ih => simp [processPositions, ih]

end MemeSniper

namespace MemeSniper

/-- Per-position form of the derived-field invariants: whatever update the
iteration stages (price update or close-on-sell update) has the position's
id, current_value = amount * current_price, and profit_loss_value =
current_value - entry_value. -/
lemma processPosition_inv (priceOf : Position → Option ℚ)
    (sellOf : Position → SellOutcome) (executeExits hasTradeConfig : Bool)
    (p : Position) :
    (∀ u, (processPosition priceOf sellOf executeExits hasTradeConfig p).2.1 = some u →
      u.id = p.id ∧ u.current_value = p.amount * u.current_price ∧
      u.profit_loss_value = u.current_value - p.entry_value) ∧
    (∀ c, (processPosition priceOf sellOf executeExits hasTradeConfig p).2.2 = some c →
      c.id = p.id ∧ c.current_value = p.amount * c.current_price ∧
      c.profit_loss_value = c.current_value - p.entry_value) := by
  unfold processPosition
  cases hp : priceOf p with
  | none => constructor <;> intro x hx <;> simp at hx
  | some currentPrice =>
    constructor <;> intro x hx <;> dsimp only [] at hx <;>
      (repeat' split at hx) <;> simp at hx <;> (try subst hx) <;> simp

end MemeSniper

namespace MemeSniper

/-- C8: every update the monitor writes — each staged price update and
each close-on-sell update produced over a batch — belongs to some position
of the batch and preserves its invariants: current_value equals the
position's amount times the written current_price, and profit_loss_value
equals current_value minus the position's entry_value; the derived fields
are written together, never one without the other. -/
theorem positionUpdates_invariant (priceOf : Position → Option ℚ)
    (sellOf : Position → SellOutcome) (executeExits hasTradeConfig : Bool)
    (positions : List Position) :
    (∀ u ∈ (processPositions priceOf sellOf executeExits hasTradeConfig positions).2.1,
      ∃ p ∈ positions, u.id = p.id ∧
        u.current_value = p.amount * u.current_price ∧
        u.profit_loss_value = u.current_value - p.entry_value) ∧
    (∀ c ∈ (processPositions priceOf sellOf executeExits hasTradeConfig positions).2.2,
      ∃ p ∈ positions, c.id = p.id ∧
        c.current_value = p.amount * c.current_price ∧
        c.profit_loss_value = c.current_value - p.entry_value) := by
  induction positions with
  | nil => simp [processPositions]
  | cons p ps ih =>
    have hinv := processPosition_inv priceOf sellOf executeExits hasTradeConfig p
    constructor
    · intro u hu
      rcases List.mem_append.mp hu with hu | hu
      · rcases Option.mem_toList.mp hu with hu
        exact ⟨p, List.mem_cons_self p ps, hinv.1 u hu⟩
      · obtain ⟨q, hq, hrest⟩ := ih.1 u hu
        exact ⟨q, List.mem_cons_of_mem p hq, hrest⟩
    · intro c hc
      rcases List.mem_append.mp hc with hc | hc
      · rcases Option.mem_toList.mp hc with hc
        exact ⟨p, List.mem_cons_self p ps, hinv.2 c hc⟩
      · obtain ⟨q, hq, hrest⟩ := ih.2 c hc
        exact ⟨q, List.mem_cons_of_mem p hq, hrest⟩

/-- Witness for positionUpdates_invariant: a concrete one-position batch
whose sell executes, staging both a price update and a close-on-sell update,
each satisfying the invariants. -/
theorem positionUpdates_invariant_witness :
    let p : Position := ⟨"p1", "TOK", 1, 1, 10, 10, 0, 50, 20⟩
    let priceOf : Position → Option ℚ := fun _ => some 2
    let sellOf : Position → SellOutcome := fun _ => .success "tx1"
    (∀ u ∈ (processPositions priceOf sellOf true true [p]).2.1,
      ∃ q ∈ [p], u.id = q.id ∧
        u.current_value = q.amount * u.current_price ∧
        u.profit_loss_value = u.current_value - q.entry_value) ∧
    (∀ c ∈ (processPositions priceOf sellOf true true [p]).2.2,
      ∃ q ∈ [p], c.id = q.id ∧
        c.current_value = q.amount * c.current_price ∧
        c.profit_loss_value = c.current_value - q.entry_value) :=
  positionUpdates_invariant (fun _ => some 2) (fun _ => .success "tx1") true true
    [⟨"p1", "TOK", 1, 1, 10, 10, 0, 50, 20⟩]

end MemeSniper

namespace MemeSniper

/-- C4: when the price fetch for a position yields none, the monitor emits
for it a result with action hold, executed false and error
"Could not fetch current price", stages no update for it (so its stored
price, value and P&L fields are untouched), and the rest of the batch — the
positions before and after it — is processed exactly as it would be on its
own. -/
theorem processPositions_priceFetchFail (priceOf : Position → Option ℚ)
    (sellOf : Position → SellOutcome) (executeExits hasTradeConfig : Bool)
    (p : Position) (ps1 ps2 : List Position) (hp : priceOf p = none) :
    processPositions priceOf sellOf executeExits hasTradeConfig (ps1 ++ p :: ps2) =
      ((processPositions priceOf sellOf executeExits hasTradeConfig ps1).1 ++
        ⟨p.id, p.token_symbol, .hold, p.current_price, p.profit_loss_percent,
          false, none, some "Could not fetch current price"⟩ ::
        (processPositions priceOf sellOf executeExits hasTradeConfig ps2).1,
       (processPositions priceOf sellOf executeExits hasTradeConfig ps1).2.1 ++
        (processPositions priceOf sellOf executeExits hasTradeConfig ps2).2.1,
       (processPositions priceOf sellOf executeExits hasTradeConfig ps1).2.2 ++
        (processPositions priceOf sellOf executeExits hasTradeConfig ps2).2.2) := by
  have hmid : processPosition priceOf sellOf executeExits hasTradeConfig p =
      (⟨p.id, p.token_symbol, .hold, p.current_price, p.profit_loss_percent,
        false, none, some "Could not fetch current price"⟩, none, none) := by
    unfold processPosition
    rw [hp]
  rw [processPositions_append]
  simp [processPositions, hmid]

/-- Witness for processPositions_priceFetchFail: a two-position batch where
the first position's price fetch fails and the second's succeeds; the first
gets the hold/error result and no staged update, the second is processed
normally. -/
theorem processPositions_priceFetchFail_witness :
    let pBad : Position := ⟨"p1", "BAD", 1, 1, 10, 10, 0, 50, 20⟩
    let pGood : Position := ⟨"p2", "GOOD", 1, 1, 5, 5, 0, 50, 20⟩
    let priceOf : Position → Option ℚ := fun q => if q.id == "p1" then none else some 1
    let sellOf : Position → SellOutcome := fun _ => .failure "no"
    processPositions priceOf sellOf false false (pBad :: [pGood]) =
      ((processPositions priceOf sellOf false false []).1 ++
        ⟨"p1", "BAD", .hold, 1, 0, false, none, some "Could not fetch current price"⟩ ::
        (processPositions priceOf sellOf false false [pGood]).1,
       (processPositions priceOf sellOf false false []).2.1 ++
        (processPositions priceOf sellOf false false [pGood]).2.1,
       (processPositions priceOf sellOf false false []).2.2 ++
        (processPositions priceOf sellOf false false [pGood]).2.2) := by
  intro pBad pGood priceOf sellOf
  have h := processPositions_priceFetchFail priceOf sellOf false false pBad [] [pGood] rfl
  simpa using h

end MemeSniper

namespace MemeSniper

/-! ## Solana balance reader (solana-balance/index.ts) -/

/-- The fixed fallback RPC list (solana-balance/index.ts lines 9-14). -/
def FALLBACK_RPCS : List String :=
  ["https://api.mainnet-beta.solana.com",
   "https://solana-mainnet.g.alchemy.com/v2/demo",
   "https://rpc.ankr.com/solana",
   "https://solana.public-rpc.com"]

/-- JavaScript String.prototype.includes, on the character lists. -/
def includesStr (s pat : String) : Bool :=
  s.data.tails.any (fun t => pat.data.isPrefixOf t)

/-- A rate-limit-shaped error message, as tested by the chain loop
(solana-balance/index.ts line 58): the exact RATE_LIMITED sentinel or any
message containing 429. -/
def isRateLimitMsg (msg : String) : Bool :=
  msg == "RATE_LIMITED" || includesStr msg "429"

/-- The application-level error object of a JSON-RPC response. -/
structure RpcError where
  code : Int
  message : Option String
deriving DecidableEq, Repr

/-- A JavaScript number as coerced by Number(...): a finite value or a
non-finite one (NaN or infinity). -/
inductive NumVal where
  | fin (q : ℚ)
  | nonfinite
deriving DecidableEq, Repr

/-- The parts of an RPC fetch response read by getBalanceLamports: the ok
flag and status, the body text used for the non-2xx error message, the
optional application error object, and the optional result.value field. -/
structure RpcResponse where
  ok : Bool
  status : ℕ
  bodyText : String
  rpcError : Option RpcError
  resultValue : Option NumVal
deriving DecidableEq, Repr

/-- getBalanceLamports (solana-balance/index.ts lines 20-48): non-2xx
responses and application errors throw (rate-limit errors as the
RATE_LIMITED sentinel); otherwise the balance is Number(result.value ?? 0),
with non-finite values reported as 0. -/
def getBalanceLamports (r : RpcResponse) : Except String ℚ :=
  if !r.ok then
    .error ("RPC error " ++ toString r.status ++ ": " ++ r.bodyText.take 120)
  else
    match r.rpcError with
    | some e =>
      if e.code == -32429 ||
          (match e.message with
           | some m => includesStr m "max usage"
           | none => false) then
        .error "RATE_LIMITED"
      else
        .error (match e.message with
          | some m => if m == "" then "RPC returned an error" else m
          | none => "RPC returned an error")
    | none =>
      match r.resultValue with
      | some (.fin q) => .ok q
      | some .nonfinite => .ok 0
      | none => .ok 0

/-- The candidate list of getBalanceWithFallback (line 51): the primary
endpoint followed by the fallbacks with the primary filtered out. -/
def rpcsToTry (primaryRpc : String) : List String :=
  primaryRpc :: FALLBACK_RPCS.filter (fun r => r ≠ primaryRpc)

/-- The loop of getBalanceWithFallback (lines 53-66) over the candidate
endpoints paired with their outcomes: return the first success; on a failure
that is not the last candidate, continue; on the last candidate's failure,
throw "All RPCs rate limited" when that failure is rate-limit-shaped, else
rethrow its message.  The second component records the endpoints attempted,
in order. -/
def runFallback : List (String × Except String ℚ) → Except String ℚ × List String
  | [] => (.error "No RPC available", [])
  | [(rpc, outcome)] =>
    (match outcome with
     | .ok v => .ok v
     | .error msg =>
       .error (if isRateLimitMsg msg then "All RPCs rate limited" else msg),
     [rpc])
  | (rpc, outcome) :: next :: rest =>
    match outcome with
    | .ok v => (.ok v, [rpc])
    | .error _ =>
      ((runFallback (next :: rest)).1, rpc :: (runFallback (next :: rest)).2)

/-- getBalanceWithFallback (solana-balance/index.ts lines 50-69), with the
network modelled as an outcome per endpoint. -/
def getBalanceWithFallback (primaryRpc : String)
    (outcomeOf : String → Except String ℚ) : Except String ℚ × List String :=
  runFallback ((rpcsToTry primaryRpc).map (fun r => (r, outcomeOf r)))

/-- The endpoints the loop attempts are an in-order prefix of the
candidates. -/
lemma runFallback_attempts_prefix :
    ∀ l : List (String × Except String ℚ), (runFallback l).2 <+: l.map Prod.fst
  | [] => by simp [runFallback]
  | [(rpc, outcome)] => by
    cases outcome <;> simp [runFallback]
  | (rpc, outcome) :: next :: rest => by
    cases outcome with
    | ok v => simp [runFallback]
    | error m =>
      have ih := runFallback_attempts_prefix (next :: rest)
      obtain ⟨t, ht⟩ := ih
      exact ⟨t, by simp [runFallback, ht]⟩

/-- When every candidate fails, the loop result is the last candidate's
message, replaced by "All RPCs rate limited" when that last failure is
rate-limit-shaped. -/
lemma runFallback_allError :
    ∀ (l : List (String × Except String ℚ)) (plast : String × Except String ℚ)
      (mlast : String),
      (∀ p ∈ l, ∃ m, p.2 = Except.error m) →
      l.getLast? = some plast → plast.2 = Except.error mlast →
      (runFallback l).1 =
        Except.error (if isRateLimitMsg mlast then "All RPCs rate limited" else mlast)
  | [], _, _, _, hlast, _ => by simp at hlast
  | [(rpc, outcome)], plast, mlast, hfail, hlast, hmsg => by
    simp at hlast
    subst hlast
    simp at hmsg
    simp [runFallback, hmsg]
  | (rpc, outcome) :: next :: rest, plast, mlast, hfail, hlast, hmsg => by
    obtain ⟨m, hm⟩ := hfail (rpc, outcome) (List.mem_cons_self _ _)
    simp at hm
    subst hm
    have hlast2 : (next :: rest).getLast? = some plast := by
      rw [← hlast]
      exact List.getLast?_cons_cons.symm
    have ih := runFallback_allError (next :: rest) plast mlast
      (fun p hp => hfail p (List.mem_cons_of_mem _ hp)) hlast2 hmsg
    simpa [runFallback] using ih

end MemeSniper

namespace MemeSniper

/-- getLast? commutes with map. -/
lemma getLast?_map {α β : Type} (f : α → β) :
    ∀ l : List α, (l.map f).getLast? = l.getLast?.map f
  | [] => rfl
  | [a] => rfl
  | a :: b :: t => by
    simpa [List.map_cons, List.getLast?_cons_cons] using getLast?_map f (b :: t)

/-- C9: the fallback reader's candidate list is the configured primary
endpoint followed by the fixed fallback list with the primary filtered out;
the endpoints it attempts are an in-order prefix of that list, contain no
endpoint twice (one attempt per endpoint, no retry), and number at most
N+1 where N is the length of the fallback list. -/
theorem getBalanceWithFallback_attempts (primaryRpc : String)
    (outcomeOf : String → Except String ℚ) :
    rpcsToTry primaryRpc =
      primaryRpc :: FALLBACK_RPCS.filter (fun r => r ≠ primaryRpc) ∧
    (getBalanceWithFallback primaryRpc outcomeOf).2 <+: rpcsToTry primaryRpc ∧
    (getBalanceWithFallback primaryRpc outcomeOf).2.Nodup ∧
    (getBalanceWithFallback primaryRpc outcomeOf).2.length ≤
      FALLBACK_RPCS.length + 1 := by
  have hpre : (getBalanceWithFallback primaryRpc outcomeOf).2 <+: rpcsToTry primaryRpc := by
    have h := runFallback_attempts_prefix
      ((rpcsToTry primaryRpc).map (fun r => (r, outcomeOf r)))
    have hmap : ∀ l : List String,
        List.map Prod.fst (l.map (fun r => (r, outcomeOf r))) = l := by
      intro l
      induction l with
      | nil => rfl
      | cons a t ih => simp only [List.map_cons, ih]
    rw [hmap (rpcsToTry primaryRpc)] at h
    exact h
  have hnodup : (rpcsToTry primaryRpc).Nodup := by
    have hfb : FALLBACK_RPCS.Nodup := by decide
    refine List.nodup_cons.mpr ⟨?_, hfb.filter _⟩
    intro hmem
    exact absurd rfl (List.of_mem_filter (p := fun r => decide (r ≠ primaryRpc)) hmem |> of_decide_eq_true)
  refine ⟨rfl, hpre, hpre.sublist.nodup hnodup, ?_⟩
  calc (getBalanceWithFallback primaryRpc outcomeOf).2.length
      ≤ (rpcsToTry primaryRpc).length := hpre.sublist.length_le
    _ = (FALLBACK_RPCS.filter (fun r => r ≠ primaryRpc)).length + 1 := by
        simp [rpcsToTry]
    _ ≤ FALLBACK_RPCS.length + 1 := by
        exact Nat.add_le_add_right (List.length_filter_le _ _) 1

/-- Counterexample to C2 as stated: two kinds of failure (boom, then the
rate-limit sentinel on the last endpoint) are mixed, yet the thrown message
is "All RPCs rate limited", not the last endpoint's underlying message
RATE_LIMITED — the replacement depends only on the shape of the last
failure. -/
theorem getBalanceWithFallback_mixed_counterexample :
    isRateLimitMsg "boom" = false ∧
    (getBalanceWithFallback "https://api.mainnet-beta.solana.com"
      (fun r => if r == "https://solana.public-rpc.com"
        then Except.error "RATE_LIMITED" else Except.error "boom")).1 ≠
      Except.error "RATE_LIMITED" ∧
    (getBalanceWithFallback "https://api.mainnet-beta.solana.com"
      (fun r => if r == "https://solana.public-rpc.com"
        then Except.error "RATE_LIMITED" else Except.error "boom")).1 =
      Except.error "All RPCs rate limited" := by
  have heq : (getBalanceWithFallback "https://api.mainnet-beta.solana.com"
      (fun r => if r == "https://solana.public-rpc.com"
        then Except.error "RATE_LIMITED" else Except.error "boom")).1 =
      Except.error "All RPCs rate limited" := by rfl
  refine ⟨by decide, ?_, heq⟩
  rw [heq]
  intro hc
  have hs : ("All RPCs rate limited" : String) = "RATE_LIMITED" := by
    injection hc
  exact absurd hs (by decide)

/-- C2 as amended: when the chain exhausts all candidates, the thrown
message is "All RPCs rate limited" exactly when the LAST endpoint's failure
is rate-limit-shaped, and the last endpoint's underlying message otherwise;
in particular if every endpoint's failure is rate-limit-shaped the message
is "All RPCs rate limited". -/
theorem getBalanceWithFallback_allFail (primaryRpc : String)
    (outcomeOf : String → Except String ℚ) (rlast mlast : String)
    (hfail : ∀ r ∈ rpcsToTry primaryRpc, ∃ m, outcomeOf r = Except.error m)
    (hlast : (rpcsToTry primaryRpc).getLast? = some rlast)
    (hmsg : outcomeOf rlast = Except.error mlast) :
    (getBalanceWithFallback primaryRpc outcomeOf).1 =
      Except.error (if isRateLimitMsg mlast then "All RPCs rate limited" else mlast) ∧
    ((∀ r ∈ rpcsToTry primaryRpc, ∀ m, outcomeOf r = Except.error m → isRateLimitMsg m) →
      (getBalanceWithFallback primaryRpc outcomeOf).1 =
        Except.error "All RPCs rate limited") := by
  have hmain : (getBalanceWithFallback primaryRpc outcomeOf).1 =
      Except.error (if isRateLimitMsg mlast then "All RPCs rate limited" else mlast) := by
    apply runFallback_allError
      ((rpcsToTry primaryRpc).map (fun r => (r, outcomeOf r)))
      (rlast, outcomeOf rlast) mlast
    · intro p hp
      obtain ⟨r, hr, hpr⟩ := List.mem_map.mp hp
      obtain ⟨m, hm⟩ := hfail r hr
      exact ⟨m, by rw [← hpr]; exact hm⟩
    · rw [getLast?_map, hlast]
      rfl
    · exact hmsg
  refine ⟨hmain, fun hall => ?_⟩
  have hrl : isRateLimitMsg mlast = true := by
    have hmem : rlast ∈ rpcsToTry primaryRpc := by
      obtain ⟨hne, heq⟩ := List.mem_getLast?_eq_getLast (Option.mem_def.mpr hlast)
      rw [heq]
      exact List.getLast_mem hne
    exact hall rlast hmem mlast hmsg
  rw [hmain, hrl]
  simp

/-- Witness for getBalanceWithFallback_allFail: a primary outside the
fallback list and every endpoint failing with RATE_LIMITED yields the
thrown message "All RPCs rate limited". -/
theorem getBalanceWithFallback_allFail_witness :
    (getBalanceWithFallback "https://rpc.example.com"
      (fun _ => Except.error "RATE_LIMITED")).1 =
      Except.error "All RPCs rate limited" := by
  have h := getBalanceWithFallback_allFail "https://rpc.example.com"
    (fun _ => Except.error "RATE_LIMITED")
    "https://solana.public-rpc.com" "RATE_LIMITED"
    (fun r _ => ⟨"RATE_LIMITED", rfl⟩) (by decide) rfl
  refine h.2 ?_
  intro r _ m hm
  simp only [Except.error.injEq] at hm
  subst hm
  decide

/-- C10: a 2xx response with no application error whose result.value field
is absent or not a finite number yields a balance of 0 lamports, not an
error. -/
theorem getBalanceLamports_malformedValue (r : RpcResponse)
    (hok : r.ok = true) (herr : r.rpcError = none)
    (hval : r.resultValue = none ∨ r.resultValue = some .nonfinite) :
    getBalanceLamports r = Except.ok 0 := by
  unfold getBalanceLamports
  rw [hok, herr]
  rcases hval with h | h <;> rw [h] <;> rfl

/-- Witness for getBalanceLamports_malformedValue: an ok response carrying
no result.value at all is reported as a zero balance. -/
theorem getBalanceLamports_malformedValue_witness :
    getBalanceLamports ⟨true, 200, "", none, none⟩ = Except.ok 0 :=
  getBalanceLamports_malformedValue ⟨true, 200, "", none, none⟩ rfl rfl (Or.inl rfl)

end MemeSniper

namespace MemeSniper

/-! ## Priority fee estimator (usePriorityFees, src/unnamed/part_004) -/

/-- The four priority tiers. -/
inductive PriorityLevel where
  | low
  | medium
  | high
  | veryHigh
deriving DecidableEq, Repr

/-- The PriorityFeeEstimate record; lastUpdated is an epoch-millisecond
timestamp. -/
structure PriorityFeeEstimate where
  low : ℚ
  medium : ℚ
  high : ℚ
  veryHigh : ℚ
  recommended : PriorityLevel
  lastUpdated : ℕ
deriving DecidableEq, Repr

/-- DEFAULT_FEES (part_004 lines 154-159), in microLamports: the fixed
positive floors of each tier. -/
def DEFAULT_FEES : PriorityLevel → ℚ
  | .low => 1000
  | .medium => 10000
  | .high => 100000
  | .veryHigh => 500000

/-- PRIORITY_MULTIPLIERS (part_004 lines 162-167), relative to the median
(p75 for high, p90 for veryHigh). -/
def PRIORITY_MULTIPLIERS : PriorityLevel → ℚ
  | .low => 1/2
  | .medium => 1
  | .high => 5/2
  | .veryHigh => 5

/-- determineRecommended (part_004 lines 239-255): tier from the congestion
ratio p90/median. -/
def determineRecommended (median p90 : ℚ) : PriorityLevel :=
  let congestionRatio := p90 / median
  if congestionRatio > 10 then .veryHigh
  else if congestionRatio > 5 then .high
  else if congestionRatio > 2 then .medium
  else .low

/-- The hook state: the current estimate and lastFetchRef. -/
structure FeeState where
  estimate : PriorityFeeEstimate
  lastFetch : ℕ
deriving DecidableEq, Repr

/-- The initial hook state (part_004 lines 170-176): the default fees,
recommended medium, lastUpdated the mount time, lastFetchRef 0. -/
def initialFeeState (mountTime : ℕ) : FeeState :=
  ⟨⟨DEFAULT_FEES .low, DEFAULT_FEES .medium, DEFAULT_FEES .high, DEFAULT_FEES .veryHigh,
    .medium, mountTime⟩, 0⟩

/-- What getRecentPrioritizationFees yields: unavailable covers both a
thrown RPC error (caught at part_004 line 230) and a null result; otherwise
the raw per-transaction fee samples. -/
inductive SampleSource where
  | unavailable
  | samples (recentFees : List ℚ)
deriving DecidableEq, Repr

/-- fetchPriorityFees (part_004 lines 178-236), with time and the RPC
modelled explicitly: calls within 30000 ms of lastFetchRef, or without a
connection, return the cached estimate and leave the state untouched;
otherwise lastFetchRef is set to now, and an unavailable source, an empty
sample list or a sample list with no positive entries returns the previous
estimate; otherwise the positive samples are sorted ascending, the median,
75th and 90th percentiles are read at floor(n*0.5), floor(n*0.75) and
floor(n*0.9) (index-based, no interpolation; exact for these sizes, so
modelled as Nat quotients), and the new estimate is built from them and
stored.  Returns the estimate the call yields and the new state. -/
def fetchPriorityFees (st : FeeState) (now : ℕ) (hasConnection : Bool)
    (src : SampleSource) : PriorityFeeEstimate × FeeState :=
  if now - st.lastFetch < 30000 then (st.estimate, st)
  else if !hasConnection then (st.estimate, st)
  else
    let st1 : FeeState := ⟨st.estimate, now⟩
    match src with
    | .unavailable => (st1.estimate, st1)
    | .samples recentFees =>
      if recentFees.isEmpty then (st1.estimate, st1)
      else
        let fees := List.insertionSort (· ≤ ·) (recentFees.filter (fun f => 0 < f))
        if fees.length = 0 then (st1.estimate, st1)
        else
          let median := fees.getD (fees.length / 2) 0
          let p75 := fees.getD (fees.length * 3 / 4) 0
          let p90 := fees.getD (fees.length * 9 / 10) 0
          let newEstimate : PriorityFeeEstimate :=
            ⟨max (median * PRIORITY_MULTIPLIERS .low) (DEFAULT_FEES .low),
             max (median * PRIORITY_MULTIPLIERS .medium) (DEFAULT_FEES .medium),
             max (p75 * PRIORITY_MULTIPLIERS .high) (DEFAULT_FEES .high),
             max (p90 * PRIORITY_MULTIPLIERS .veryHigh) (DEFAULT_FEES .veryHigh),
             determineRecommended median p90, now⟩
          (newEstimate, ⟨newEstimate, now⟩)

/-- Each tier of an estimate is at or above its fixed positive floor. -/
def feesAtFloor (e : PriorityFeeEstimate) : Prop :=
  DEFAULT_FEES .low ≤ e.low ∧ DEFAULT_FEES .medium ≤ e.medium ∧
  DEFAULT_FEES .high ≤ e.high ∧ DEFAULT_FEES .veryHigh ≤ e.veryHigh

end MemeSniper

namespace MemeSniper

/-- The estimate the unthrottled path computes from a sample list (the body
of part_004 lines 203-225 as one value). -/
def computedEstimate (recentFees : List ℚ) (now : ℕ) : PriorityFeeEstimate :=
  let fees := List.insertionSort (· ≤ ·) (recentFees.filter (fun f => 0 < f))
  let median := fees.getD (fees.length / 2) 0
  let p75 := fees.getD (fees.length * 3 / 4) 0
  let p90 := fees.getD (fees.length * 9 / 10) 0
  ⟨max (median * PRIORITY_MULTIPLIERS .low) (DEFAULT_FEES .low),
   max (median * PRIORITY_MULTIPLIERS .medium) (DEFAULT_FEES .medium),
   max (p75 * PRIORITY_MULTIPLIERS .high) (DEFAULT_FEES .high),
   max (p90 * PRIORITY_MULTIPLIERS .veryHigh) (DEFAULT_FEES .veryHigh),
   determineRecommended median p90, now⟩

/-- An unthrottled, connected call with a nonempty positive sample list
computes and stores the new estimate. -/
lemma fetchPriorityFees_run (st : FeeState) (now : ℕ) (recentFees : List ℚ)
    (h1 : ¬ now - st.lastFetch < 30000) (h2 : recentFees.isEmpty = false)
    (h3 : ¬ (List.insertionSort (· ≤ ·) (recentFees.filter (fun f => 0 < f))).length = 0) :
    fetchPriorityFees st now true (.samples recentFees) =
      (computedEstimate recentFees now, ⟨computedEstimate recentFees now, now⟩) := by
  have h3' := h3
  simp at h3'
  simp [fetchPriorityFees, computedEstimate, h1, h2, h3']

end MemeSniper

namespace MemeSniper

/-- C5: an unthrottled refresh with samples whose positive part is nonempty
sorts the positive samples ascending, reads the index-based median, 75th and
90th percentiles at floor(n*0.5), floor(n*0.75), floor(n*0.9), builds the
tier fees as max(median*0.5, 1000), max(median*1.0, 10000),
max(p75*2.5, 100000), max(p90*5.0, 500000), and picks the recommended tier
from the ratio p90/median: over 10 veryHigh, over 5 high, over 2 medium,
else low. -/
theorem fetchPriorityFees_computes (st : FeeState) (now : ℕ) (recentFees : List ℚ)
    (fees : List ℚ) (median p75 p90 : ℚ)
    (hthrottle : ¬ now - st.lastFetch < 30000)
    (hpos : recentFees.filter (fun f => 0 < f) ≠ [])
    (hfees : fees = List.insertionSort (· ≤ ·) (recentFees.filter (fun f => 0 < f)))
    (hmedian : median = fees.getD (fees.length / 2) 0)
    (hp75 : p75 = fees.getD (fees.length * 3 / 4) 0)
    (hp90 : p90 = fees.getD (fees.length * 9 / 10) 0) :
    fees.Sorted (· ≤ ·) ∧ (∀ f ∈ fees, 0 < f) ∧
    (fetchPriorityFees st now true (.samples recentFees)).1 =
      ⟨max (median * (1/2)) 1000, max (median * 1) 10000,
       max (p75 * (5/2)) 100000, max (p90 * 5) 500000,
       determineRecommended median p90, now⟩ ∧
    (p90 / median > 10 → determineRecommended median p90 = .veryHigh) ∧
    (¬ p90 / median > 10 → p90 / median > 5 →
      determineRecommended median p90 = .high) ∧
    (¬ p90 / median > 10 → ¬ p90 / median > 5 → p90 / median > 2 →
      determineRecommended median p90 = .medium) ∧
    (¬ p90 / median > 10 → ¬ p90 / median > 5 → ¬ p90 / median > 2 →
      determineRecommended median p90 = .low) := by
  subst hfees
  subst hmedian
  subst hp75
  subst hp90
  have hempty : recentFees.isEmpty = false := by
    cases recentFees with
    | nil => simp at hpos
    | cons a t => rfl
  have hlen : ¬ (List.insertionSort (· ≤ ·) (recentFees.filter (fun f => 0 < f))).length = 0 := by
    intro h0
    apply hpos
    have hperm := List.perm_insertionSort (· ≤ ·) (recentFees.filter (fun f => 0 < f))
    have hle := hperm.length_eq
    rw [h0] at hle
    exact List.length_eq_zero.mp hle.symm
  refine ⟨List.sorted_insertionSort _ _, ?_, ?_, ?_, ?_, ?_, ?_⟩
  · intro f hf
    have hmem := (List.perm_insertionSort (· ≤ ·)
      (recentFees.filter (fun g => 0 < g))).subset hf
    have := (List.mem_filter.mp hmem).2
    exact of_decide_eq_true this
  · rw [fetchPriorityFees_run st now recentFees hthrottle hempty hlen]
    simp [computedEstimate, PRIORITY_MULTIPLIERS, DEFAULT_FEES]
  · intro h10
    simp only [determineRecommended]
    rw [if_pos h10]
  · intro h10 h5
    simp only [determineRecommended]
    rw [if_neg h10, if_pos h5]
  · intro h10 h5 h2
    simp only [determineRecommended]
    rw [if_neg h10, if_neg h5, if_pos h2]
  · intro h10 h5 h2
    simp only [determineRecommended]
    rw [if_neg h10, if_neg h5, if_neg h2]

end MemeSniper

namespace MemeSniper

/-- Witness for fetchPriorityFees_computes: samples [300, -5, 100] drop the
non-positive, sort to [100, 300], give median = p75 = p90 = 300, tier fees
clipped to the floors and recommended low. -/
theorem fetchPriorityFees_computes_witness :
    ([100, 300] : List ℚ).Sorted (· ≤ ·) ∧
    (∀ f ∈ ([100, 300] : List ℚ), 0 < f) ∧
    (fetchPriorityFees (initialFeeState 0) 40000 true
        (.samples [300, -5, 100])).1 =
      ⟨max ((300 : ℚ) * (1/2)) 1000, max ((300 : ℚ) * 1) 10000,
       max ((300 : ℚ) * (5/2)) 100000, max ((300 : ℚ) * 5) 500000,
       determineRecommended 300 300, 40000⟩ ∧
    ((300 : ℚ) / 300 > 10 → determineRecommended (300 : ℚ) 300 = .veryHigh) ∧
    (¬ (300 : ℚ) / 300 > 10 → (300 : ℚ) / 300 > 5 →
      determineRecommended (300 : ℚ) 300 = .high) ∧
    (¬ (300 : ℚ) / 300 > 10 → ¬ (300 : ℚ) / 300 > 5 → (300 : ℚ) / 300 > 2 →
      determineRecommended (300 : ℚ) 300 = .medium) ∧
    (¬ (300 : ℚ) / 300 > 10 → ¬ (300 : ℚ) / 300 > 5 → ¬ (300 : ℚ) / 300 > 2 →
      determineRecommended (300 : ℚ) 300 = .low) :=
  fetchPriorityFees_computes (initialFeeState 0) 40000 [300, -5, 100]
    [100, 300] 300 300 300
    (by decide) (by decide) (by decide) (by decide) (by decide) (by decide)

end MemeSniper

namespace MemeSniper

/-- The computed estimate keeps every tier at or above its floor. -/
lemma feesAtFloor_computedEstimate (recentFees : List ℚ) (now : ℕ) :
    feesAtFloor (computedEstimate recentFees now) := by
  refine ⟨le_max_right _ _, le_max_right _ _, le_max_right _ _, le_max_right _ _⟩

/-- Every call either returns the held estimate or the estimate computed
from its sample list. -/
lemma fetchPriorityFees_result_cases (st : FeeState) (now : ℕ)
    (hasConnection : Bool) (src : SampleSource) :
    (fetchPriorityFees st now hasConnection src).1 = st.estimate ∨
    ∃ recentFees, src = .samples recentFees ∧
      (fetchPriorityFees st now hasConnection src).1 =
        computedEstimate recentFees now := by
  by_cases h1 : now - st.lastFetch < 30000
  · left; simp [fetchPriorityFees, h1]
  · cases hasConnection with
    | false => left; simp [fetchPriorityFees, h1]
    | true =>
      cases src with
      | unavailable => left; simp [fetchPriorityFees, h1]
      | samples recentFees =>
        by_cases hemp : recentFees.isEmpty = true
        · left; simp [fetchPriorityFees, h1, hemp]
        · have hempf : recentFees.isEmpty = false := eq_false_of_ne_true hemp
          by_cases hlen : (List.insertionSort (· ≤ ·)
              (recentFees.filter (fun f => 0 < f))).length = 0
          · left
            have hlen' := hlen
            simp at hlen'
            simp [fetchPriorityFees, h1, hempf]
            rw [if_pos hlen']
          · right
            exact ⟨recentFees, rfl,
              by rw [fetchPriorityFees_run st now recentFees h1 hempf hlen]⟩

/-- C6 as amended: a call within 30000 ms of the time recorded by the last
attempt that passed the throttle returns the cached estimate and leaves the
state untouched; a call with no connection likewise; an unavailable sample
source or a sample list with no positive entries returns the previous
estimate unchanged; and every call preserves the floor invariant — all four
tier fees at or above their fixed positive floors — which the initial
estimate satisfies, so fees are never zero and the estimate never null. -/
theorem fetchPriorityFees_throttle_spec (st : FeeState) (now : ℕ)
    (hasConnection : Bool) (src : SampleSource) :
    (now - st.lastFetch < 30000 →
      fetchPriorityFees st now hasConnection src = (st.estimate, st)) ∧
    (hasConnection = false →
      fetchPriorityFees st now hasConnection src = (st.estimate, st)) ∧
    (src = .unavailable →
      (fetchPriorityFees st now hasConnection src).1 = st.estimate) ∧
    (∀ recentFees, src = .samples recentFees →
      recentFees.filter (fun f => 0 < f) = [] →
      (fetchPriorityFees st now hasConnection src).1 = st.estimate) ∧
    (feesAtFloor st.estimate →
      feesAtFloor (fetchPriorityFees st now hasConnection src).1) ∧
    (∀ mountTime, feesAtFloor (initialFeeState mountTime).estimate) := by
  refine ⟨?_, ?_, ?_, ?_, ?_, ?_⟩
  · intro h; simp [fetchPriorityFees, h]
  · intro h
    subst h
    unfold fetchPriorityFees
    split
    · rfl
    · rfl
  · intro h
    subst h
    by_cases h1 : now - st.lastFetch < 30000
    · simp [fetchPriorityFees, h1]
    · cases hasConnection <;> simp [fetchPriorityFees, h1]
  · intro recentFees hsrc hfilter
    subst hsrc
    by_cases h1 : now - st.lastFetch < 30000
    · simp [fetchPriorityFees, h1]
    · cases hasConnection with
      | false => simp [fetchPriorityFees, h1]
      | true =>
        cases recentFees with
        | nil => simp [fetchPriorityFees, h1]
        | cons a t => simp [fetchPriorityFees, h1, hfilter]
  · intro hfl
    rcases fetchPriorityFees_result_cases st now hasConnection src with h | ⟨r, _, h⟩
    · rw [h]; exact hfl
    · rw [h]; exact feesAtFloor_computedEstimate r now
  · intro mountTime
    exact ⟨le_refl _, le_refl _, le_refl _, le_refl _⟩

/-- Witness for fetchPriorityFees_throttle_spec: a call 10000 ms after the
recorded fetch time returns the held estimate and state unchanged, and an
unthrottled call whose only sample is non-positive returns the previous
estimate. -/
theorem fetchPriorityFees_throttle_spec_witness :
    fetchPriorityFees ⟨⟨2000, 20000, 200000, 600000, .low, 5⟩, 10000⟩
        20000 true (.samples [50]) =
      (⟨2000, 20000, 200000, 600000, .low, 5⟩,
       ⟨⟨2000, 20000, 200000, 600000, .low, 5⟩, 10000⟩) ∧
    (fetchPriorityFees ⟨⟨2000, 20000, 200000, 600000, .low, 5⟩, 0⟩
        40000 true (.samples [-3])).1 = ⟨2000, 20000, 200000, 600000, .low, 5⟩ :=
  ⟨(fetchPriorityFees_throttle_spec ⟨⟨2000, 20000, 200000, 600000, .low, 5⟩, 10000⟩
      20000 true (.samples [50])).1 (by decide),
   (fetchPriorityFees_throttle_spec ⟨⟨2000, 20000, 200000, 600000, .low, 5⟩, 0⟩
      40000 true (.samples [-3])).2.2.2.1 [-3] rfl (by decide)⟩

/-- Counterexample to C6 as stated: with the estimator mounted at time 0, a
refresh at 40000 recomputes (recording 40000), a refresh at 69999 is
throttled and returns the 40000 estimate unchanged, and a refresh at 79000 —
only 9001 ms after the previous call, well within 30 seconds — recomputes
and returns an estimate with a new lastUpdated: two refresh calls within 30
seconds of each other need not return the same estimate, because the
throttle window is keyed to the last recompute, not to the previous call. -/
theorem fetchPriorityFees_pair_counterexample :
    79000 - 69999 < 30000 ∧
    (fetchPriorityFees
      (fetchPriorityFees (initialFeeState 0) 40000 true (.samples [100])).2
      69999 true (.samples [100])).1 =
      (fetchPriorityFees (initialFeeState 0) 40000 true (.samples [100])).1 ∧
    (fetchPriorityFees
      (fetchPriorityFees
        (fetchPriorityFees (initialFeeState 0) 40000 true (.samples [100])).2
        69999 true (.samples [100])).2
      79000 true (.samples [100])).1.lastUpdated = 79000 ∧
    (fetchPriorityFees
      (fetchPriorityFees (initialFeeState 0) 40000 true (.samples [100])).2
      69999 true (.samples [100])).1.lastUpdated = 40000 ∧
    (fetchPriorityFees
      (fetchPriorityFees
        (fetchPriorityFees (initialFeeState 0) 40000 true (.samples [100])).2
        69999 true (.samples [100])).2
      79000 true (.samples [100])).1 ≠
    (fetchPriorityFees
      (fetchPriorityFees (initialFeeState 0) 40000 true (.samples [100])).2
      69999 true (.samples [100])).1 := by
  have h1 : fetchPriorityFees (initialFeeState 0) 40000 true (.samples [100]) =
      (computedEstimate [100] 40000, ⟨computedEstimate [100] 40000, 40000⟩) :=
    fetchPriorityFees_run (initialFeeState 0) 40000 [100] (by decide) rfl (by decide)
  have h2 : fetchPriorityFees ⟨computedEstimate [100] 40000, 40000⟩
      69999 true (.samples [100]) =
      (computedEstimate [100] 40000, ⟨computedEstimate [100] 40000, 40000⟩) := by
    have hc : (69999 : ℕ) - (FeeState.mk (computedEstimate [100] 40000) 40000).lastFetch
        < 30000 := by decide
    simp [fetchPriorityFees, hc]
  have h3 : fetchPriorityFees ⟨computedEstimate [100] 40000, 40000⟩
      79000 true (.samples [100]) =
      (computedEstimate [100] 79000, ⟨computedEstimate [100] 79000, 79000⟩) :=
    fetchPriorityFees_run ⟨computedEstimate [100] 40000, 40000⟩ 79000 [100]
      (by decide) rfl (by decide)
  rw [h1, h2, h3]
  refine ⟨by decide, rfl, rfl, rfl, ?_⟩
  intro h
  exact absurd (congrArg PriorityFeeEstimate.lastUpdated h) (by decide)

end MemeSniper
